import Mathlib

/-!
Verification of the tokenir trading agent against its specification.

The definitions below are shallow embeddings of the Rust source:

* `BondingCurve`, `BondingCurve.buy`, `BondingCurve.price` —
  src/src/pump_interaction/accounts/bonding_curve.rs.  The `u64` fields are
  modelled as `Nat`; all intermediate arithmetic is performed in `u128` in the
  source and is modelled exactly, with the one wrapping subtraction made
  explicit as `(x + 2 ^ 128 - y) % 2 ^ 128` (Rust release-mode two's-complement
  behaviour of `u128` subtraction; in checked builds the same underflow
  panics).  The final `as u64` cast is `% 2 ^ 64`.
* `buyAutomata_quote_unwrap` — the quoting step of `BuyAutomata::buy`
  (src/tokenir_ui/src/autobuy.rs, lines 175-185), where the source calls
  `curve.buy(lamport_amount).unwrap()`; `none` models the panic of `unwrap`
  on an `Err` value.
* `TokenPool` — src/tokenir/src/pool.rs.  The `HashMap<Pubkey, Token>` is
  modelled by its key list (the `Token` values play no role in the capacity
  claim), the `VecDeque<Pubkey>` by a list, keys abstracted to `Nat` (the
  source key is the derived pool address `pool_pda(mint)`, a SHA-256 based
  derivation that is injective for the purpose of the claim).
* `parse_optimized_bytes` and the borsh readers — src/tokenir/src/fetcher.rs
  and src/tokenir/src/types/logs.rs.
* `FilterSet`, `Filters`, `Tag` — src/tokenir_ui/src/filter.rs.
* `TokenCache` — src/tokenir/src/main.rs.
* `find_leader_at_slot` — src/tokenir_ui/src/autobuy.rs.
-/

namespace Tokenir

/-- Bonding-curve account state
(src/src/pump_interaction/accounts/bonding_curve.rs, struct `BondingCurve`).
All integer fields are `u64` in the source, modelled as `Nat`. -/
structure BondingCurve where
  discriminator : Nat
  virtual_token_reserves : Nat
  virtual_sol_reserves : Nat
  real_token_reserves : Nat
  real_sol_reserves : Nat
  token_total_supply : Nat
  complete : Bool

/-- The source's `Default` impl for `BondingCurve`. -/
def BondingCurve.default : BondingCurve :=
  { discriminator := 6966180631402821399
    virtual_token_reserves := 1073000000000000
    virtual_sol_reserves := 30000000000
    real_token_reserves := 793100000000000
    real_sol_reserves := 0
    token_total_supply := 1000000000000000
    complete := false }

/-- All fields fit in `u64`, as they do in the source struct. -/
def BondingCurve.wf (c : BondingCurve) : Prop :=
  c.virtual_token_reserves < 2 ^ 64 ∧ c.virtual_sol_reserves < 2 ^ 64 ∧
    c.real_token_reserves < 2 ^ 64

/-- `BondingCurve::buy` (bonding_curve.rs lines 18-46).  The quote for buying
with `amount` lamports: constant product in `u128`, `+ 1` rounding, clamp to
`real_token_reserves`.  The subtraction `virtual_token_reserves - r` is a
`u128` subtraction in the source: it wraps modulo `2 ^ 128` when
`r > virtual_token_reserves` (which happens exactly when
`virtual_token_reserves = 0`); the wrap is modelled explicitly. -/
def BondingCurve.buy (c : BondingCurve) (amount : Nat) : Except String Nat :=
  if c.complete then .error "Curve is complete"
  else if amount = 0 then .ok 0
  else
    let n : Nat := c.virtual_sol_reserves * c.virtual_token_reserves
    let i : Nat := c.virtual_sol_reserves + amount
    let r : Nat := n / i + 1
    let s : Nat := (c.virtual_token_reserves + 2 ^ 128 - r) % 2 ^ 128
    let s_u64 : Nat := s % 2 ^ 64
    .ok (if s_u64 < c.real_token_reserves then s_u64 else c.real_token_reserves)

/-- `BondingCurve::price` (bonding_curve.rs lines 48-65): proportional-reserve
sell quote minus a basis-point fee (default 100).  `n - a` is a `u128`
subtraction, modelled with the same explicit wrap. -/
def BondingCurve.price (c : BondingCurve) (amount : Nat)
    (fee_basis_points : Option Nat) : Except String Nat :=
  if c.complete then .error "Curve is complete"
  else if amount = 0 then .ok 0
  else
    let fee : Nat := fee_basis_points.getD 100
    let n : Nat := amount * c.virtual_sol_reserves /
      (c.virtual_token_reserves + amount)
    let a : Nat := n * fee / 10000
    .ok ((n + 2 ^ 128 - a) % 2 ^ 128 % 2 ^ 64)

/-- The quoting step of `BuyAutomata::buy` (src/tokenir_ui/src/autobuy.rs,
lines 175-185): the source evaluates `curve.buy(lamport_amount).unwrap()` to
fill the buy instruction.  `unwrap` panics when the quote is an `Err`;
the panic is modelled as `none`. -/
def buyAutomata_quote_unwrap (curve : BondingCurve) (lamport_amount : Nat) :
    Option Nat :=
  match curve.buy lamport_amount with
  | .ok v => some v
  | .error _ => none

/-- A fetched on-chain state whose curve is complete. -/
def completeCurve : BondingCurve :=
  { BondingCurve.default with complete := true }

/-- The value claimed for `quote_buy` by the specification, read with
truncated natural subtraction (over ℤ the inner difference is negative exactly
when the truncation is not the identity):
`min (virtual_token_reserves - (virtual_sol_reserves * virtual_token_reserves /
(virtual_sol_reserves + sol_in) + 1)) real_token_reserves`. -/
def quote_buy_claim_formula (c : BondingCurve) (sol_in : Nat) : Nat :=
  min (c.virtual_token_reserves -
      (c.virtual_sol_reserves * c.virtual_token_reserves /
        (c.virtual_sol_reserves + sol_in) + 1))
    c.real_token_reserves

/-- A non-complete curve state with zero virtual token reserves: the state on
which the `u128` subtraction in `BondingCurve::buy` underflows. -/
def zeroTokenCurve : BondingCurve :=
  { discriminator := 0
    virtual_token_reserves := 0
    virtual_sol_reserves := 0
    real_token_reserves := 5
    real_sol_reserves := 0
    token_total_supply := 0
    complete := false }

/-- Core arithmetic of `BondingCurve::buy` for a positive amount on a curve
with positive token reserves: the clamped constant-product value, with the
`u128` wrap and the `u64` cast both the identity. -/
theorem buy_val_eq (vsol vtok rtok a : Nat) (ha : 0 < a) (hv : 0 < vtok)
    (hb : vtok < 2 ^ 64) :
    (if (vtok + 2 ^ 128 - (vsol * vtok / (vsol + a) + 1)) % 2 ^ 128 % 2 ^ 64 <
        rtok then
      (vtok + 2 ^ 128 - (vsol * vtok / (vsol + a) + 1)) % 2 ^ 128 % 2 ^ 64
    else rtok) = min (vtok - (vsol * vtok / (vsol + a) + 1)) rtok := by
  have hdiv : vsol * vtok / (vsol + a) < vtok := by
    apply Nat.div_lt_of_lt_mul
    have : vsol < vsol + a := by omega
    exact Nat.mul_lt_mul_of_lt_of_le this (Nat.le_refl vtok) hv
  generalize hq : vsol * vtok / (vsol + a) = q at hdiv ⊢
  have hwrap : (vtok + 2 ^ 128 - (q + 1)) % 2 ^ 128 = vtok - (q + 1) := by
    have h1 : vtok + 2 ^ 128 - (q + 1) = (vtok - (q + 1)) + 2 ^ 128 := by
      omega
    rw [h1, Nat.add_mod_right]
    exact Nat.mod_eq_of_lt (by omega)
  rw [hwrap, Nat.mod_eq_of_lt (by omega)]
  rcases Nat.lt_or_ge (vtok - (q + 1)) rtok with h | h
  · rw [if_pos h, Nat.min_def, if_pos (Nat.le_of_lt h)]
  · rw [if_neg (Nat.not_lt.mpr h), Nat.min_def]
    by_cases he : vtok - (q + 1) ≤ rtok
    · rw [if_pos he]
      omega
    · rw [if_neg he]

/-- `BondingCurve.buy` on a non-complete curve with a positive amount and
positive token reserves returns the claimed clamped constant-product value. -/
theorem buy_eq_claim_formula (c : BondingCurve) (a : Nat)
    (hc : c.complete = false) (ha : 0 < a)
    (hv : 0 < c.virtual_token_reserves)
    (hb : c.virtual_token_reserves < 2 ^ 64) :
    c.buy a = .ok (quote_buy_claim_formula c a) := by
  have ha0 : ¬ a = 0 := by omega
  simp only [BondingCurve.buy, hc, Bool.false_eq_true, if_false, ha0,
    quote_buy_claim_formula]
  rw [buy_val_eq c.virtual_sol_reserves c.virtual_token_reserves
    c.real_token_reserves a ha hv hb]

/-- C5 [corrected]: on every non-complete curve with positive
`virtual_token_reserves` (a `u64` field, hence `< 2 ^ 64`), a positive
`sol_in` is quoted as
`min (virtual_token_reserves - (virtual_sol_reserves * virtual_token_reserves
/ (virtual_sol_reserves + sol_in) + 1)) real_token_reserves`, computed in
128-bit intermediates; a zero input is quoted as 0; and the spec's concrete
scenario (`virtual_sol_reserves = 30_000_000_000`,
`virtual_token_reserves = 1_073_000_000_000_000`, buying `1_000_000_000`
lamports) yields exactly 34_612_903_225_806.  (The restriction
`0 < virtual_token_reserves` is forced: at zero token reserves the `u128`
subtraction underflows, see `c5_counterexample`.) -/
theorem c5_quote_buy_formula (c : BondingCurve) (a : Nat)
    (hc : c.complete = false) (ha : 0 < a)
    (hv : 0 < c.virtual_token_reserves)
    (hb : c.virtual_token_reserves < 2 ^ 64) :
    c.buy a = .ok (quote_buy_claim_formula c a) ∧ c.buy 0 = .ok 0 ∧
      BondingCurve.default.buy 1000000000 = .ok 34612903225806 := by
  refine ⟨buy_eq_claim_formula c a hc ha hv hb, ?_, by rfl⟩
  simp [BondingCurve.buy, hc]

/-- Witness for `c5_quote_buy_formula` at the source's default curve. -/
theorem c5_quote_buy_formula_witness :
    (BondingCurve.default.complete = false ∧ 0 < 1000000000 ∧
      0 < BondingCurve.default.virtual_token_reserves ∧
      BondingCurve.default.virtual_token_reserves < 2 ^ 64) ∧
    (BondingCurve.default.buy 1000000000 =
        .ok (quote_buy_claim_formula BondingCurve.default 1000000000) ∧
      BondingCurve.default.buy 0 = .ok 0 ∧
      BondingCurve.default.buy 1000000000 = .ok 34612903225806) :=
  ⟨⟨rfl, by decide, by decide, by decide⟩,
    c5_quote_buy_formula BondingCurve.default 1000000000 rfl (by decide)
      (by decide) (by decide)⟩

/-- C6 [confirmed]: for all non-zero inputs `a₁ ≤ a₂` and every non-complete
curve (`virtual_token_reserves` being a `u64` field, hence `< 2 ^ 64`),
`quote_buy` succeeds, its value never exceeds `real_token_reserves`, and the
value at `a₁` never exceeds the value at `a₂` — the quote is monotonically
non-decreasing in `sol_in`. -/
theorem c6_quote_buy_bounded_monotone (c : BondingCurve) (a₁ a₂ : Nat)
    (hc : c.complete = false) (hb : c.virtual_token_reserves < 2 ^ 64)
    (h1 : 0 < a₁) (h12 : a₁ ≤ a₂) :
    ∃ v₁ v₂, c.buy a₁ = .ok v₁ ∧ c.buy a₂ = .ok v₂ ∧
      v₁ ≤ c.real_token_reserves ∧ v₁ ≤ v₂ := by
  have h2 : 0 < a₂ := lt_of_lt_of_le h1 h12
  by_cases hv : 0 < c.virtual_token_reserves
  · refine ⟨_, _, buy_eq_claim_formula c a₁ hc h1 hv hb,
      buy_eq_claim_formula c a₂ hc h2 hv hb, min_le_right _ _, ?_⟩
    apply min_le_min _ (le_refl _)
    apply Nat.sub_le_sub_left
    apply Nat.add_le_add_right
    exact Nat.div_le_div_left (Nat.add_le_add_left h12 _) (by omega)
  · have hv0 : c.virtual_token_reserves = 0 := by omega
    have key : ∀ a : Nat, 0 < a → c.buy a =
        .ok (if 2 ^ 64 - 1 < c.real_token_reserves then 2 ^ 64 - 1
          else c.real_token_reserves) := by
      intro a ha
      have ha0 : ¬ a = 0 := by omega
      simp only [BondingCurve.buy, hc, Bool.false_eq_true, if_false, ha0,
        hv0, Nat.mul_zero, Nat.zero_div]
      norm_num
    refine ⟨_, _, key a₁ h1, key a₂ h2, ?_, le_refl _⟩
    by_cases h : 2 ^ 64 - 1 < c.real_token_reserves
    · rw [if_pos h]
      omega
    · rw [if_neg h]

/-- Witness for `c6_quote_buy_bounded_monotone` at the default curve with
inputs 1 and 2. -/
theorem c6_quote_buy_bounded_monotone_witness :
    BondingCurve.default.complete = false ∧
      BondingCurve.default.virtual_token_reserves < 2 ^ 64 ∧
      (∃ v₁ v₂, BondingCurve.default.buy 1 = .ok v₁ ∧
        BondingCurve.default.buy 2 = .ok v₂ ∧
        v₁ ≤ BondingCurve.default.real_token_reserves ∧ v₁ ≤ v₂) :=
  ⟨rfl, by decide,
    c6_quote_buy_bounded_monotone BondingCurve.default 1 2 rfl (by decide)
      (by decide) (by decide)⟩

/-- C5's counterexample: on the non-complete curve with
`virtual_token_reserves = 0` (and `real_token_reserves = 5`) and `sol_in = 1`,
the `u128` subtraction underflows and wraps, the `u64` cast yields
`2 ^ 64 - 1`, and the clamp returns `real_token_reserves = 5` — not the
claimed formula value, which is 0 (truncated; negative over ℤ).  In a checked
build the same state panics instead of returning. -/
theorem c5_counterexample :
    zeroTokenCurve.buy 1 = .ok 5 ∧
      quote_buy_claim_formula zeroTokenCurve 1 = 0 ∧
      (Except.ok 5 : Except String Nat) ≠ .ok 0 := by
  refine ⟨by rfl, by rfl, ?_⟩
  intro h
  simp at h

/-- Shared helper: `BondingCurve::buy` on a complete curve is the
curve-complete error. -/
theorem buy_complete_error (c : BondingCurve) (amount : Nat)
    (h : c.complete = true) : c.buy amount = .error "Curve is complete" := by
  simp [BondingCurve.buy, h]

/-- C7 [confirmed]: for every input amount (zero included) and every curve
state with `complete = true`, both `BondingCurve::buy` (`quote_buy`) and
`BondingCurve::price` (`quote_sell_price`) fail with the curve-complete
error — the completeness check precedes even the zero-amount early return. -/
theorem c7_complete_curve_always_errors (c : BondingCurve) (amount : Nat)
    (fee : Option Nat) (h : c.complete = true) :
    c.buy amount = .error "Curve is complete" ∧
      c.price amount fee = .error "Curve is complete" :=
  ⟨buy_complete_error c amount h, by simp [BondingCurve.price, h]⟩

/-- Witness for `c7_complete_curve_always_errors` at a concrete complete
curve, with a zero amount. -/
theorem c7_complete_curve_always_errors_witness :
    completeCurve.complete = true ∧
      (completeCurve.buy 0 = .error "Curve is complete" ∧
        completeCurve.price 0 none = .error "Curve is complete") :=
  ⟨rfl, c7_complete_curve_always_errors completeCurve 0 none rfl⟩

/-- C1 [code_bug]: for every fetched curve state with `complete = true` and
every configured spend amount, the quoting step of `BuyAutomata::buy`
evaluates `curve.buy(lamport_amount).unwrap()` on an `Err` value and panics
(`none` in the model) — the completed-curve condition is not returned to the
caller as a typed error, although `BondingCurve::buy` itself did produce
one. -/
theorem c1_buy_automata_quote_panics (c : BondingCurve) (amount : Nat)
    (h : c.complete = true) :
    buyAutomata_quote_unwrap c amount = none ∧
      c.buy amount = .error "Curve is complete" := by
  have hb := buy_complete_error c amount h
  exact ⟨by simp [buyAutomata_quote_unwrap, hb], hb⟩

/-- Witness for `c1_buy_automata_quote_panics` at a concrete complete curve
and the spend amount 1_000_000. -/
theorem c1_buy_automata_quote_panics_witness :
    completeCurve.complete = true ∧
      (buyAutomata_quote_unwrap completeCurve 1000000 = none ∧
        completeCurve.buy 1000000 = .error "Curve is complete") :=
  ⟨rfl, c1_buy_automata_quote_panics completeCurve 1000000 rfl⟩

/-- Key set of a `HashMap`: inserting an existing key replaces its value and
leaves the key set unchanged; a fresh key is appended. -/
def insertKey (l : List Nat) (k : Nat) : List Nat :=
  if l.contains k then l else l ++ [k]

/-- `HashMap::remove`: the key is removed from the key set (a no-op when the
key is absent). -/
def removeKey (l : List Nat) (k : Nat) : List Nat :=
  l.filter (fun x => x ≠ k)

/-- `TokenPool` (src/tokenir/src/pool.rs): the `pool : HashMap<Pubkey, Token>`
is modelled by its key list, `collector : VecDeque<Pubkey>` by a list,
`max_size : u64` by a `Nat`.  Keys are the derived pool addresses
(`pool_pda(mint)`), abstracted to `Nat`; the `Token` values, the
`filtered`/`filtered_check`/`history`/`filters` fields and the
`Token::fresh` construction play no part in the capacity behaviour and are
omitted. -/
structure TokenPool where
  pool : List Nat
  collector : List Nat
  max_size : Nat

/-- `TokenPool::new` (pool.rs lines 32-42): empty pool, `max_size = 50`. -/
def TokenPool.new : TokenPool :=
  { pool := [], collector := [], max_size := 50 }

/-- `TokenPool::add` (pool.rs lines 44-64), applied to the derived key
`pda = pool_pda(event.mint)`: insert into the map, push the key onto the back
of `collector`, and — when `collector.len() > max_size` — remove the key at
`collector.front()` from the map.  The source never pops the front of
`collector`. -/
def TokenPool.add (tp : TokenPool) (pda : Nat) : TokenPool :=
  let pool := insertKey tp.pool pda
  let collector := tp.collector ++ [pda]
  if collector.length > tp.max_size then
    match collector.head? with
    | some front =>
        { pool := removeKey pool front, collector := collector,
          max_size := tp.max_size }
    | none =>
        { pool := pool, collector := collector, max_size := tp.max_size }
  else { pool := pool, collector := collector, max_size := tp.max_size }

/-- The pool state after admitting 52 assets with distinct derived keys
0, 1, ..., 51. -/
def poolAfter52 : TokenPool :=
  (List.range 52).foldl TokenPool.add TokenPool.new

set_option maxRecDepth 40000 in
/-- C2 [code_bug]: after 52 `add` operations with distinct keys the keyed map
holds 51 entries — one more than the configured capacity `max_size = 50` —
and key 1, the oldest surviving key that FIFO eviction should have removed on
the 52nd insertion, is still present, while `collector` has grown to 52
entries.  `TokenPool::add` removes `collector.front()` from the map but never
pops it, so every insertion after the 51st tries to evict the same
already-evicted key and the map grows without bound. -/
theorem c2_pool_exceeds_capacity :
    poolAfter52.pool.length = 51 ∧ poolAfter52.max_size = 50 ∧
      poolAfter52.pool.contains 1 = true ∧
      poolAfter52.pool.contains 0 = false ∧
      poolAfter52.collector.length = 52 := by
  decide

/-- The `Error` enum of src/tokenir_ui/src/autobuy.rs (lines 386-394). -/
inductive AutobuyError
  | BlockHashFetchFailed
  | TransactionError
  | BoundingCurveNotFound
  | LeaderScheduleFetchFailed
  | SlotFetchFailed
  | LeaderNotFound
deriving DecidableEq

/-- `schedule.values().map(|v| v.len()).sum()` over the leader schedule. -/
def total_slots (schedule : List (String × List Nat)) : Nat :=
  (schedule.map (fun p => p.2.length)).sum

/-- `BuyAutomata::find_leader_at_slot` (autobuy.rs lines 337-352).  The
`HashMap<String, Vec<usize>>` is modelled as an association list whose order
stands for one iteration order of the map (the verified property does not
depend on it).  `slot as usize % total_slots` divides by zero — a Rust
panic, modelled as `none` — when the schedule holds no slots at all. -/
def find_leader_at_slot (schedule : List (String × List Nat)) (slot : Nat) :
    Option (Except AutobuyError String) :=
  let total := total_slots schedule
  if total = 0 then none
  else
    let slot_index := slot % total
    match schedule.find? (fun p => p.2.contains slot_index) with
    | some p => some (.ok p.1)
    | none => some (.error .LeaderNotFound)

/-- C9 [confirmed]: for every leader schedule holding at least one scheduled
slot and every slot whose reduced index `slot % total_slots` is assigned to
no producer, `find_leader_at_slot` returns the `LeaderNotFound` error — it
does not default to some producer. -/
theorem c9_leader_not_found (schedule : List (String × List Nat)) (slot : Nat)
    (ht : 0 < total_slots schedule)
    (habs : ∀ p ∈ schedule, slot % total_slots schedule ∉ p.2) :
    find_leader_at_slot schedule slot =
      some (.error AutobuyError.LeaderNotFound) := by
  unfold find_leader_at_slot
  rw [if_neg (by omega)]
  have hfind : schedule.find?
      (fun p => p.2.contains (slot % total_slots schedule)) = none := by
    rw [List.find?_eq_none]
    intro p hp
    simpa using habs p hp
  simp only [hfind]

/-- Witness for `c9_leader_not_found`: one producer assigned only slot
index 1, queried at slot 5 (total one scheduled slot, reduced index 0). -/
theorem c9_leader_not_found_witness :
    0 < total_slots [("validatorA", [1])] ∧
      find_leader_at_slot [("validatorA", [1])] 5 =
        some (.error AutobuyError.LeaderNotFound) :=
  ⟨by decide, c9_leader_not_found [("validatorA", [1])] 5 (by decide)
    (by decide)⟩

/-- `TokenCache` (src/tokenir/src/main.rs lines 53-62): eight duplicate
indices, each a `HashMap<_, ()>` used as a set, modelled by its key list. -/
structure TokenCache where
  images : List String
  ipfs : List String
  descriptions : List String
  names : List String
  tickers : List String
  name_ticker_pairs : List (String × String)
  desc_name_pairs : List (String × String)
  desc_ticker_pairs : List (String × String)

/-- `if let Some(v) = o { set.contains_key(v) } else` fall-through: the
guarded membership test of one `check_duplicate` block. -/
def optContains (l : List String) : Option String → Bool
  | some v => l.contains v
  | none => false

/-- `if let (Some(a), Some(b)) = (o₁, o₂)` guarded pair-membership test of
one `check_duplicate` block. -/
def optPairContains (l : List (String × String)) :
    Option String → Option String → Bool
  | some a, some b => l.contains (a, b)
  | _, _ => false

/-- `TokenCache::check_duplicate` (main.rs lines 451-513): returns true as
soon as ANY of the six indexed conditions holds, testing them in the
source's order (image, ipfs, description+name, description+ticker,
name+ticker, name alone). -/
def TokenCache.check_duplicate (c : TokenCache)
    (image ipfs description name ticker : Option String) : Bool :=
  if optContains c.images image then true
  else if optContains c.ipfs ipfs then true
  else if optPairContains c.desc_name_pairs description name then true
  else if optPairContains c.desc_ticker_pairs description ticker then true
  else if optPairContains c.name_ticker_pairs name ticker then true
  else if optContains c.names name then true
  else false

/-- `TokenCache::insert_token` (main.rs lines 515-550): records every present
attribute and attribute pair in its index. -/
def TokenCache.insert_token (c : TokenCache)
    (image ipfs description name ticker : Option String) : TokenCache :=
  let c1 := match image with
    | some img => { c with images := img :: c.images }
    | none => c
  let c2 := match ipfs with
    | some v => { c1 with ipfs := v :: c1.ipfs }
    | none => c1
  let c3 := match description with
    | some d =>
        let ca := { c2 with descriptions := d :: c2.descriptions }
        let cb := match name with
          | some n => { ca with desc_name_pairs := (d, n) :: ca.desc_name_pairs }
          | none => ca
        match ticker with
        | some t =>
            { cb with desc_ticker_pairs := (d, t) :: cb.desc_ticker_pairs }
        | none => cb
    | none => c2
  let c4 := match name with
    | some n =>
        let ca := { c3 with names := n :: c3.names }
        match ticker with
        | some t =>
            { ca with name_ticker_pairs := (n, t) :: ca.name_ticker_pairs }
        | none => ca
    | none => c3
  match ticker with
  | some t => { c4 with tickers := t :: c4.tickers }
  | none => c4

/-- C8 [confirmed]: (1) after recording a candidate, any candidate sharing
only its image URI is flagged as a duplicate whatever its other attributes;
(2) in general `check_duplicate` is true exactly when ANY of image,
metadata-URI, (description, name), (description, ticker), (name, ticker), or
name alone is already indexed. -/
theorem c8_duplicate_check :
    (∀ (c : TokenCache) (img : String) (i₁ d₁ n₁ t₁ i₂ d₂ n₂ t₂ :
        Option String),
      (c.insert_token (some img) i₁ d₁ n₁ t₁).check_duplicate (some img) i₂
        d₂ n₂ t₂ = true) ∧
    (∀ (c : TokenCache) (image ipfs description name ticker : Option String),
      c.check_duplicate image ipfs description name ticker = true ↔
        ((∃ img, image = some img ∧ img ∈ c.images) ∨
          (∃ v, ipfs = some v ∧ v ∈ c.ipfs) ∨
          (∃ d n, description = some d ∧ name = some n ∧
            (d, n) ∈ c.desc_name_pairs) ∨
          (∃ d t, description = some d ∧ ticker = some t ∧
            (d, t) ∈ c.desc_ticker_pairs) ∨
          (∃ n t, name = some n ∧ ticker = some t ∧
            (n, t) ∈ c.name_ticker_pairs) ∨
          (∃ n, name = some n ∧ n ∈ c.names))) := by
  constructor
  · intro c img i₁ d₁ n₁ t₁ i₂ d₂ n₂ t₂
    rcases i₁ <;> rcases d₁ <;> rcases n₁ <;> rcases t₁ <;>
      simp [TokenCache.insert_token, TokenCache.check_duplicate, optContains]
  · intro c image ipfs description name ticker
    rcases image <;> rcases ipfs <;> rcases description <;> rcases name <;>
      rcases ticker <;>
      simp [TokenCache.check_duplicate, optContains, optPairContains]

/-- Creator migration counts (src/tokenir_ui/src/migration.rs, struct
`Migrated`): tokens created and tokens that migrated. -/
structure Migrated where
  totalCount : Nat
  migratedCount : Nat

/-- Creator history wrapper (`CreatorHistory`, migration.rs). -/
structure CreatorHistory where
  counts : Migrated

/-- The fields of `Token` (src/tokenir_ui/src/token.rs) read by the filter
engine; the `Pubkey`, social and metadata fields are never consulted by
`FilterSet::matches` or `Filters::filter` and are omitted. -/
structure Token where
  name : String
  ticker : String
  mcap : Nat
  ath : Nat
  migrated : Option CreatorHistory
  token_2022 : Bool

/-- Rust `Range<u64>` (`start..stop`, half-open).  `stop` is the range's
`end` field (`end` is a Lean keyword). -/
structure RangeU64 where
  start : Nat
  stop : Nat

/-- `Range::contains`: `start ≤ x < stop`. -/
def RangeU64.contains (r : RangeU64) (x : Nat) : Bool :=
  decide (r.start ≤ x) && decide (x < r.stop)

/-- Filter tags (src/tokenir_ui/src/filter.rs, enum `Tag`). -/
inductive Tag
  | AverageDevMarketCap
  | MigrationPercentage
  | TokenCount
deriving DecidableEq

/-- Filter predicates (filter.rs, enum `Filters`). -/
inductive Filters
  | AverageDevMarketCap (r : RangeU64)
  | TokenCount (r : RangeU64)
  | MigrationPercentage (r : RangeU64)

/-- The creator migration percentage computed by
`Filters::filter` (filter.rs lines 109-120):
`((migratedCount as f32 / totalCount as f32) * 100).floor() as u64`,
modelled as the exact floor `migratedCount * 100 / totalCount`.  (The source
computes it through `f32`, whose rounding can differ from the exact floor
only for counts large enough to lose mantissa precision; the composition
properties verified below do not depend on the value.) -/
def migration_percentage (m : Migrated) : Nat :=
  m.migratedCount * 100 / m.totalCount

/-- `Filters::filter` (filter.rs lines 96-123): evaluate one predicate
against a token and the creator's average market cap.  A predicate whose
required creator history is absent returns `false`. -/
def Filters.filter (f : Filters) (token : Token) (average_mcap : Nat) :
    Bool :=
  match f with
  | .AverageDevMarketCap r => r.contains average_mcap
  | .TokenCount r =>
      match token.migrated with
      | some history => r.contains history.counts.totalCount
      | none => false
  | .MigrationPercentage r =>
      match token.migrated with
      | some history => r.contains (migration_percentage history.counts)
      | none => false

/-- `FilterSet` (filter.rs): `filters : HashMap<Tag, Filters>`, modelled as
its lookup function (at most one binding per tag). -/
structure FilterSet where
  filters : Tag → Option Filters

/-- `FilterSet::new`: the empty filter map. -/
def FilterSet.new : FilterSet :=
  { filters := fun _ => none }

/-- `FilterSet::matches` (filter.rs lines 48-79).  The source iterates the
map once, setting one of three `Option<bool>` pass variables per matching
(tag, variant) pair — a mismatched variant under a tag falls to the `_ => ()`
arm and leaves its variable `None`; with at most one binding per tag the loop
is equivalent to the three lookups below.  Missing passes default to `false`
(`unwrap_or(false)`), and the verdict is
`mcap_ok || (migration_ok && token_count_ok)`. -/
def FilterSet.matches (fs : FilterSet) (token : Token)
    (average_mcap : Option Nat) : Bool :=
  let mcap_pass : Option Bool :=
    match fs.filters Tag.AverageDevMarketCap with
    | some (Filters.AverageDevMarketCap r) =>
        match average_mcap with
        | none => some false
        | some v => some ((Filters.AverageDevMarketCap r).filter token v)
    | _ => none
  let migration_pass : Option Bool :=
    match fs.filters Tag.MigrationPercentage with
    | some (Filters.MigrationPercentage r) =>
        some ((Filters.MigrationPercentage r).filter token
          (average_mcap.getD 0))
    | _ => none
  let token_count_pass : Option Bool :=
    match fs.filters Tag.TokenCount with
    | some (Filters.TokenCount r) =>
        some ((Filters.TokenCount r).filter token (average_mcap.getD 0))
    | _ => none
  mcap_pass.getD false || (migration_pass.getD false &&
    token_count_pass.getD false)

/-- Modelled from the spec: "the market-cap predicate passes" — the
market-cap filter is configured and its required statistic (the creator's
average market cap) is present and inside the range; absent statistic means
failing, absent filter means not passing. -/
def spec_mcap_pass (fs : FilterSet) (average_mcap : Option Nat) : Bool :=
  match fs.filters Tag.AverageDevMarketCap, average_mcap with
  | some (Filters.AverageDevMarketCap r), some v => r.contains v
  | _, _ => false

/-- Modelled from the spec: "the migration-percentage predicate passes" —
configured, creator history present, percentage inside the range. -/
def spec_migration_pass (fs : FilterSet) (token : Token) : Bool :=
  match fs.filters Tag.MigrationPercentage, token.migrated with
  | some (Filters.MigrationPercentage r), some history =>
      r.contains (migration_percentage history.counts)
  | _, _ => false

/-- Modelled from the spec: "the token-count predicate passes" — configured,
creator history present, total count inside the range. -/
def spec_token_count_pass (fs : FilterSet) (token : Token) : Bool :=
  match fs.filters Tag.TokenCount, token.migrated with
  | some (Filters.TokenCount r), some history =>
      r.contains history.counts.totalCount
  | _, _ => false

/-- C4 [confirmed]: for every token and filter configuration,
`FilterSet::matches` is true exactly when the market-cap predicate passes OR
both the migration-percentage and token-count predicates pass, where a
configured predicate whose required derived statistic is absent fails (it is
never vacuously true) and an unconfigured predicate does not pass. -/
theorem c4_filter_composition (fs : FilterSet) (token : Token)
    (average_mcap : Option Nat) :
    fs.matches token average_mcap =
      (spec_mcap_pass fs average_mcap ||
        (spec_migration_pass fs token && spec_token_count_pass fs token)) := by
  rcases hA : fs.filters Tag.AverageDevMarketCap with _ | fA <;>
    rcases hM : fs.filters Tag.MigrationPercentage with _ | fM <;>
    rcases hT : fs.filters Tag.TokenCount with _ | fT <;>
    (try rcases fA) <;> (try rcases fM) <;> (try rcases fT) <;>
    rcases average_mcap with _ | v <;>
    rcases hmig : token.migrated with _ | history <;>
    simp [FilterSet.matches, spec_mcap_pass, spec_migration_pass,
      spec_token_count_pass, Filters.filter, hA, hM, hT, hmig]

/-- C10 [confirmed]: a filter set with no configured predicate matches no
token, whatever the creator statistics — the decision engine is
default-deny. -/
theorem c10_empty_filter_set_denies (fs : FilterSet)
    (hempty : ∀ t, fs.filters t = none) (token : Token)
    (average_mcap : Option Nat) :
    fs.matches token average_mcap = false := by
  simp [FilterSet.matches, hempty]

/-- Witness for `c10_empty_filter_set_denies`: `FilterSet::new` denies a
concrete token with no history and no average market cap. -/
theorem c10_empty_filter_set_denies_witness :
    (∀ t, FilterSet.new.filters t = none) ∧
      FilterSet.new.matches
        { name := "FOO", ticker := "FOO", mcap := 0, ath := 0,
          migrated := none, token_2022 := false } none = false :=
  ⟨fun _ => rfl,
    c10_empty_filter_set_denies FilterSet.new (fun _ => rfl)
      { name := "FOO", ticker := "FOO", mcap := 0, ath := 0,
        migrated := none, token_2022 := false } none⟩

/-!
Event codec (src/tokenir/src/fetcher.rs `parse_optimized` and the borsh
deserializers of src/tokenir/src/types/logs.rs).  Byte buffers are
`List Nat` (one entry per byte); a 32-byte `Pubkey` is a `List Nat`; borsh
strings are kept as their raw length-prefixed byte payload (the source
additionally validates UTF-8, which only turns some field-parse failures
into other field-parse failures and is irrelevant to the dispatch
behaviour verified here).  Each reader returns the decoded value and the
remaining bytes, `none` on failure, mirroring `io::Result` without panics.
-/

/-- Read exactly `n` bytes. -/
def readN (n : Nat) (b : List Nat) : Option (List Nat × List Nat) :=
  if n ≤ b.length then some (b.take n, b.drop n) else none

/-- Little-endian value of a byte list. -/
def leNat (bs : List Nat) : Nat :=
  bs.foldr (fun x acc => x + 256 * acc) 0

/-- borsh `u64`: 8 bytes little-endian. -/
def readU64 (b : List Nat) : Option (Nat × List Nat) :=
  match readN 8 b with
  | none => none
  | some (bs, rest) => some (leNat bs, rest)

/-- borsh `u32`: 4 bytes little-endian. -/
def readU32 (b : List Nat) : Option (Nat × List Nat) :=
  match readN 4 b with
  | none => none
  | some (bs, rest) => some (leNat bs, rest)

/-- Two's-complement reading of a `u64` bit pattern as `i64`. -/
def toI64 (v : Nat) : Int :=
  if v < 2 ^ 63 then (v : Int) else (v : Int) - 2 ^ 64

/-- borsh `i64`: 8 bytes little-endian, two's complement. -/
def readI64 (b : List Nat) : Option (Int × List Nat) :=
  match readU64 b with
  | none => none
  | some (v, rest) => some (toI64 v, rest)

/-- borsh `bool`: one byte, 0 or 1; any other byte is a parse failure. -/
def readBool (b : List Nat) : Option (Bool × List Nat) :=
  match b with
  | x :: rest =>
      if x = 0 then some (false, rest)
      else if x = 1 then some (true, rest)
      else none
  | [] => none

/-- borsh `Pubkey`: 32 raw bytes. -/
def readPubkey (b : List Nat) : Option (List Nat × List Nat) :=
  readN 32 b

/-- borsh `String`: `u32` length prefix, then that many bytes. -/
def readStr (b : List Nat) : Option (List Nat × List Nat) :=
  match readU32 b with
  | none => none
  | some (len, rest) => readN len rest

/-- `TradeEvent` (logs.rs lines 206-216). -/
structure TradeEvent where
  mint : List Nat
  sol_amount : Nat
  token_amount : Nat
  is_buy : Bool
  user : List Nat
  timestamp : Int
  virtual_sol_reserves : Nat
  virtual_token_reserves : Nat

/-- Derived borsh deserializer of `TradeEvent`, field order as declared
(each `match` is one sequential field read, failing the whole parse on
`none` exactly as the derived Rust impl propagates `Err`). -/
def TradeEvent.deserialize (b0 : List Nat) :
    Option (TradeEvent × List Nat) :=
  match readPubkey b0 with
  | none => none
  | some (mint, b1) =>
  match readU64 b1 with
  | none => none
  | some (sol_amount, b2) =>
  match readU64 b2 with
  | none => none
  | some (token_amount, b3) =>
  match readBool b3 with
  | none => none
  | some (is_buy, b4) =>
  match readPubkey b4 with
  | none => none
  | some (user, b5) =>
  match readI64 b5 with
  | none => none
  | some (timestamp, b6) =>
  match readU64 b6 with
  | none => none
  | some (virtual_sol_reserves, b7) =>
  match readU64 b7 with
  | none => none
  | some (virtual_token_reserves, b8) =>
  some ({ mint := mint, sol_amount := sol_amount,
          token_amount := token_amount, is_buy := is_buy, user := user,
          timestamp := timestamp,
          virtual_sol_reserves := virtual_sol_reserves,
          virtual_token_reserves := virtual_token_reserves }, b8)

/-- `CreateEvent` (logs.rs lines 30-40), the canonical create shape. -/
structure CreateEvent where
  name : List Nat
  symbol : List Nat
  uri : List Nat
  mint : List Nat
  bonding_curve : List Nat
  user : List Nat
  token_2022 : Bool
  timestamp : Int

/-- `CreateEventV2` (logs.rs lines 148-164), the newer richer schema. -/
structure CreateEventV2 where
  name : List Nat
  symbol : List Nat
  uri : List Nat
  mint : List Nat
  bonding_curve : List Nat
  user : List Nat
  creator : List Nat
  timestamp : Int
  virtual_token_reserves : Nat
  virtual_sol_reserves : Nat
  real_token_reserves : Nat
  token_total_supply : Nat
  token_program : List Nat
  is_mayhem_mode : Bool

/-- The Token-2022 program id
`TokenzQdBNbLqP5VEhdkAS6EPFLC1PHnBqCXEpPxuEb`, base58-decoded. -/
def TOKEN_PROGRAM_2022 : List Nat :=
  [6, 221, 246, 225, 238, 117, 143, 222, 24, 66, 93, 188, 228, 108, 205,
    218, 182, 26, 252, 77, 131, 185, 13, 39, 254, 189, 249, 40, 216, 161,
    139, 252]

/-- `impl From<CreateEventV2> for CreateEvent` (logs.rs lines 166-180):
`token_2022` is set by comparing the embedded token program id. -/
def CreateEvent.fromV2 (v : CreateEventV2) : CreateEvent :=
  { name := v.name, symbol := v.symbol, uri := v.uri, mint := v.mint,
    bonding_curve := v.bonding_curve, user := v.user,
    token_2022 := decide (v.token_program = TOKEN_PROGRAM_2022),
    timestamp := v.timestamp }

/-- The hand-written `BorshDeserialize for CreateEvent` (logs.rs lines
119-146): a failed `bool` read falls back to `false` instead of failing, and
the timestamp is the local clock (`now`, passed explicitly here). -/
def CreateEvent.deserialize (now : Int) (b0 : List Nat) :
    Option (CreateEvent × List Nat) :=
  match readStr b0 with
  | none => none
  | some (name, b1) =>
  match readStr b1 with
  | none => none
  | some (symbol, b2) =>
  match readStr b2 with
  | none => none
  | some (uri, b3) =>
  match readPubkey b3 with
  | none => none
  | some (mint, b4) =>
  match readPubkey b4 with
  | none => none
  | some (bonding_curve, b5) =>
  match readPubkey b5 with
  | none => none
  | some (user, b6) =>
  match readBool b6 with
  | some (v, rest) =>
      some ({ name := name, symbol := symbol, uri := uri, mint := mint,
              bonding_curve := bonding_curve, user := user,
              token_2022 := v, timestamp := now }, rest)
  | none =>
      some ({ name := name, symbol := symbol, uri := uri, mint := mint,
              bonding_curve := bonding_curve, user := user,
              token_2022 := false, timestamp := now }, b6)

/-- `BuyEvent` (logs.rs lines 182-192), the canonical buy shape. -/
structure BuyEvent where
  mint : List Nat
  sol_amount : Nat
  token_amount : Nat
  user : List Nat
  timestamp : Int
  virtual_sol_reserves_before : Nat
  virtual_sol_reserves_after : Nat
  virtual_token_reserves : Nat

/-- `SellEvent` (logs.rs lines 194-204), the canonical sell shape. -/
structure SellEvent where
  mint : List Nat
  sol_amount : Nat
  token_amount : Nat
  user : List Nat
  timestamp : Int
  virtual_sol_reserves_before : Nat
  virtual_sol_reserves_after : Nat
  virtual_token_reserves : Nat

/-- `BuyEventAMM` (logs.rs lines 219-241). -/
structure BuyEventAMM where
  timestamp : Int
  base_amount_out : Nat
  max_quote_amount_in : Nat
  user_base_token_reserves : Nat
  user_quote_token_reserves : Nat
  pool_base_token_reserves : Nat
  pool_quote_token_reserves : Nat
  quote_amount_in : Nat
  lp_fee_basis_points : Nat
  lp_fee : Nat
  protocol_fee_basis_points : Nat
  protocol_fee : Nat
  quote_amount_in_with_lp_fee : Nat
  user_quote_amount_in : Nat
  pool : List Nat
  user : List Nat
  user_base_token_account : List Nat
  user_quote_token_account : List Nat
  protocol_fee_recipient : List Nat
  protocol_fee_recipient_token_account : List Nat

/-- `SellEventAMM` (logs.rs lines 243-265). -/
structure SellEventAMM where
  timestamp : Int
  base_amount_in : Nat
  min_quote_amount_out : Nat
  user_base_token_reserves : Nat
  user_quote_token_reserves : Nat
  pool_base_token_reserves : Nat
  pool_quote_token_reserves : Nat
  quote_amount_out : Nat
  lp_fee_basis_points : Nat
  lp_fee : Nat
  protocol_fee_basis_points : Nat
  protocol_fee : Nat
  quote_amount_out_without_lp_fee : Nat
  user_quote_amount_out : Nat
  pool : List Nat
  user : List Nat
  user_base_token_account : List Nat
  user_quote_token_account : List Nat
  protocol_fee_recipient : List Nat
  protocol_fee_recipient_token_account : List Nat

/-- Derived borsh deserializer of `BuyEventAMM`, field order as declared
(each `match` is one sequential field read). -/
def BuyEventAMM.deserialize (b0 : List Nat) :
    Option (BuyEventAMM × List Nat) :=
  match readI64 b0 with
  | none => none
  | some (timestamp, b1) =>
  match readU64 b1 with
  | none => none
  | some (base_amount_out, b2) =>
  match readU64 b2 with
  | none => none
  | some (max_quote_amount_in, b3) =>
  match readU64 b3 with
  | none => none
  | some (user_base_token_reserves, b4) =>
  match readU64 b4 with
  | none => none
  | some (user_quote_token_reserves, b5) =>
  match readU64 b5 with
  | none => none
  | some (pool_base_token_reserves, b6) =>
  match readU64 b6 with
  | none => none
  | some (pool_quote_token_reserves, b7) =>
  match readU64 b7 with
  | none => none
  | some (quote_amount_in, b8) =>
  match readU64 b8 with
  | none => none
  | some (lp_fee_basis_points, b9) =>
  match readU64 b9 with
  | none => none
  | some (lp_fee, b10) =>
  match readU64 b10 with
  | none => none
  | some (protocol_fee_basis_points, b11) =>
  match readU64 b11 with
  | none => none
  | some (protocol_fee, b12) =>
  match readU64 b12 with
  | none => none
  | some (quote_amount_in_with_lp_fee, b13) =>
  match readU64 b13 with
  | none => none
  | some (user_quote_amount_in, b14) =>
  match readPubkey b14 with
  | none => none
  | some (pool, b15) =>
  match readPubkey b15 with
  | none => none
  | some (user, b16) =>
  match readPubkey b16 with
  | none => none
  | some (user_base_token_account, b17) =>
  match readPubkey b17 with
  | none => none
  | some (user_quote_token_account, b18) =>
  match readPubkey b18 with
  | none => none
  | some (protocol_fee_recipient, b19) =>
  match readPubkey b19 with
  | none => none
  | some (protocol_fee_recipient_token_account, b20) =>
  some ({ timestamp := timestamp, base_amount_out := base_amount_out,
          max_quote_amount_in := max_quote_amount_in,
          user_base_token_reserves := user_base_token_reserves,
          user_quote_token_reserves := user_quote_token_reserves,
          pool_base_token_reserves := pool_base_token_reserves,
          pool_quote_token_reserves := pool_quote_token_reserves,
          quote_amount_in := quote_amount_in,
          lp_fee_basis_points := lp_fee_basis_points, lp_fee := lp_fee,
          protocol_fee_basis_points := protocol_fee_basis_points,
          protocol_fee := protocol_fee,
          quote_amount_in_with_lp_fee := quote_amount_in_with_lp_fee,
          user_quote_amount_in := user_quote_amount_in, pool := pool,
          user := user,
          user_base_token_account := user_base_token_account,
          user_quote_token_account := user_quote_token_account,
          protocol_fee_recipient := protocol_fee_recipient,
          protocol_fee_recipient_token_account :=
            protocol_fee_recipient_token_account }, b20)

/-- Derived borsh deserializer of `SellEventAMM`, field order as declared
(each `match` is one sequential field read). -/
def SellEventAMM.deserialize (b0 : List Nat) :
    Option (SellEventAMM × List Nat) :=
  match readI64 b0 with
  | none => none
  | some (timestamp, b1) =>
  match readU64 b1 with
  | none => none
  | some (base_amount_in, b2) =>
  match readU64 b2 with
  | none => none
  | some (min_quote_amount_out, b3) =>
  match readU64 b3 with
  | none => none
  | some (user_base_token_reserves, b4) =>
  match readU64 b4 with
  | none => none
  | some (user_quote_token_reserves, b5) =>
  match readU64 b5 with
  | none => none
  | some (pool_base_token_reserves, b6) =>
  match readU64 b6 with
  | none => none
  | some (pool_quote_token_reserves, b7) =>
  match readU64 b7 with
  | none => none
  | some (quote_amount_out, b8) =>
  match readU64 b8 with
  | none => none
  | some (lp_fee_basis_points, b9) =>
  match readU64 b9 with
  | none => none
  | some (lp_fee, b10) =>
  match readU64 b10 with
  | none => none
  | some (protocol_fee_basis_points, b11) =>
  match readU64 b11 with
  | none => none
  | some (protocol_fee, b12) =>
  match readU64 b12 with
  | none => none
  | some (quote_amount_out_without_lp_fee, b13) =>
  match readU64 b13 with
  | none => none
  | some (user_quote_amount_out, b14) =>
  match readPubkey b14 with
  | none => none
  | some (pool, b15) =>
  match readPubkey b15 with
  | none => none
  | some (user, b16) =>
  match readPubkey b16 with
  | none => none
  | some (user_base_token_account, b17) =>
  match readPubkey b17 with
  | none => none
  | some (user_quote_token_account, b18) =>
  match readPubkey b18 with
  | none => none
  | some (protocol_fee_recipient, b19) =>
  match readPubkey b19 with
  | none => none
  | some (protocol_fee_recipient_token_account, b20) =>
  some ({ timestamp := timestamp, base_amount_in := base_amount_in,
          min_quote_amount_out := min_quote_amount_out,
          user_base_token_reserves := user_base_token_reserves,
          user_quote_token_reserves := user_quote_token_reserves,
          pool_base_token_reserves := pool_base_token_reserves,
          pool_quote_token_reserves := pool_quote_token_reserves,
          quote_amount_out := quote_amount_out,
          lp_fee_basis_points := lp_fee_basis_points, lp_fee := lp_fee,
          protocol_fee_basis_points := protocol_fee_basis_points,
          protocol_fee := protocol_fee,
          quote_amount_out_without_lp_fee :=
            quote_amount_out_without_lp_fee,
          user_quote_amount_out := user_quote_amount_out, pool := pool,
          user := user,
          user_base_token_account := user_base_token_account,
          user_quote_token_account := user_quote_token_account,
          protocol_fee_recipient := protocol_fee_recipient,
          protocol_fee_recipient_token_account :=
            protocol_fee_recipient_token_account }, b20)

/-- Derived borsh deserializer of `CreateEventV2`, field order as declared
(each `match` is one sequential field read). -/
def CreateEventV2.deserialize (b0 : List Nat) :
    Option (CreateEventV2 × List Nat) :=
  match readStr b0 with
  | none => none
  | some (name, b1) =>
  match readStr b1 with
  | none => none
  | some (symbol, b2) =>
  match readStr b2 with
  | none => none
  | some (uri, b3) =>
  match readPubkey b3 with
  | none => none
  | some (mint, b4) =>
  match readPubkey b4 with
  | none => none
  | some (bonding_curve, b5) =>
  match readPubkey b5 with
  | none => none
  | some (user, b6) =>
  match readPubkey b6 with
  | none => none
  | some (creator, b7) =>
  match readI64 b7 with
  | none => none
  | some (timestamp, b8) =>
  match readU64 b8 with
  | none => none
  | some (virtual_token_reserves, b9) =>
  match readU64 b9 with
  | none => none
  | some (virtual_sol_reserves, b10) =>
  match readU64 b10 with
  | none => none
  | some (real_token_reserves, b11) =>
  match readU64 b11 with
  | none => none
  | some (token_total_supply, b12) =>
  match readPubkey b12 with
  | none => none
  | some (token_program, b13) =>
  match readBool b13 with
  | none => none
  | some (is_mayhem_mode, b14) =>
  some ({ name := name, symbol := symbol, uri := uri, mint := mint,
          bonding_curve := bonding_curve, user := user,
          creator := creator, timestamp := timestamp,
          virtual_token_reserves := virtual_token_reserves,
          virtual_sol_reserves := virtual_sol_reserves,
          real_token_reserves := real_token_reserves,
          token_total_supply := token_total_supply,
          token_program := token_program,
          is_mayhem_mode := is_mayhem_mode }, b14)

/-- `impl From<BuyEventAMM> for BuyEvent` (logs.rs lines 268-294). -/
def BuyEvent.fromAMM (e : BuyEventAMM) : BuyEvent :=
  if e.pool_base_token_reserves > e.pool_quote_token_reserves then
    { mint := e.pool, sol_amount := e.base_amount_out,
      token_amount := e.quote_amount_in, user := e.user,
      timestamp := e.timestamp,
      virtual_sol_reserves_before := e.pool_quote_token_reserves,
      virtual_sol_reserves_after := e.pool_quote_token_reserves,
      virtual_token_reserves := e.pool_base_token_reserves }
  else
    { mint := e.pool, sol_amount := e.base_amount_out,
      token_amount := e.quote_amount_in, user := e.user,
      timestamp := e.timestamp,
      virtual_sol_reserves_before := e.pool_base_token_reserves,
      virtual_sol_reserves_after := e.pool_base_token_reserves,
      virtual_token_reserves := e.pool_quote_token_reserves }

/-- `impl From<SellEventAMM> for SellEvent` (logs.rs lines 296-309). -/
def SellEvent.fromAMM (e : SellEventAMM) : SellEvent :=
  { mint := e.pool, sol_amount := e.base_amount_in,
    token_amount := e.quote_amount_out, user := e.user,
    timestamp := e.timestamp,
    virtual_sol_reserves_before := e.pool_base_token_reserves,
    virtual_sol_reserves_after := e.pool_base_token_reserves,
    virtual_token_reserves := e.pool_quote_token_reserves }

/-- The `Event` enum (logs.rs lines 5-10). -/
inductive Event
  | Create (e : CreateEvent)
  | Buy (e : BuyEvent)
  | Sell (e : SellEvent)

/-- fetcher.rs line 471: the create discriminator. -/
def CREATE_DISCRIMINATOR : List Nat := [27, 114, 169, 77, 222, 235, 99, 118]

/-- fetcher.rs line 472: the trade discriminator. -/
def TRADE_DISCRIMINATOR : List Nat := [189, 219, 127, 211, 78, 230, 97, 238]

/-- fetcher.rs line 473: the AMM buy discriminator. -/
def BUY_AMM_DISCRIMINATOR : List Nat := [62, 47, 55, 10, 165, 3, 220, 42]

/-- fetcher.rs line 474: the AMM sell discriminator. -/
def SELL_AMM_DISCRIMINATOR : List Nat := [103, 244, 82, 31, 44, 245, 119, 119]

/-- `parse_optimized` (fetcher.rs lines 458-536) from the decoded byte
buffer on (the base64 decoding that precedes it only adds another `Err(())`
source).  The two environment-dependent computations of the trade branch are
passed as explicit parameters: `pda` stands for `pool_pda` (a SHA-256-based
program-derived-address function) and `mcap_after` for the `mcap_after`
field of `calc_price_impact` (an `f64` computation); no verified property
depends on their values.  `now` stands for the local clock read by the
legacy `CreateEvent` deserializer.  The error type is Rust's `()`: every
failure — short buffer, field parse failure, unknown discriminator — is the
same `Err(())`. -/
def parse_optimized_bytes (pda : List Nat → List Nat)
    (mcap_after : Nat → Nat → Nat → Nat → Bool → Nat → Nat)
    (now : Int) (decode_buf : List Nat) : Except Unit Event :=
  if decode_buf.length < 8 then .error ()
  else
    let discriminator := decode_buf.take 8
    let buffer := decode_buf.drop 8
    if discriminator = TRADE_DISCRIMINATOR then
      match TradeEvent.deserialize buffer with
      | none => .error ()
      | some (event, _) =>
          let impact_mcap_after := mcap_after event.virtual_sol_reserves
            event.virtual_token_reserves event.sol_amount event.token_amount
            event.is_buy 1000000000
          let pool := pda event.mint
          if event.is_buy then
            .ok (.Buy
              { mint := pool, sol_amount := event.sol_amount,
                token_amount := event.token_amount, user := event.user,
                timestamp := event.timestamp,
                virtual_sol_reserves_before := event.virtual_sol_reserves,
                virtual_sol_reserves_after := impact_mcap_after,
                virtual_token_reserves := event.virtual_token_reserves })
          else
            .ok (.Sell
              { mint := pool, sol_amount := event.sol_amount,
                token_amount := event.token_amount, user := event.user,
                timestamp := event.timestamp,
                virtual_sol_reserves_before := event.virtual_sol_reserves,
                virtual_sol_reserves_after := impact_mcap_after,
                virtual_token_reserves := event.virtual_token_reserves })
    else if discriminator = CREATE_DISCRIMINATOR then
      match CreateEventV2.deserialize buffer with
      | some (create, _) => .ok (.Create (CreateEvent.fromV2 create))
      | none =>
          match CreateEvent.deserialize now buffer with
          | some (create, _) => .ok (.Create create)
          | none => .error ()
    else if discriminator = BUY_AMM_DISCRIMINATOR then
      match BuyEventAMM.deserialize buffer with
      | some (e, _) => .ok (.Buy (BuyEvent.fromAMM e))
      | none => .error ()
    else if discriminator = SELL_AMM_DISCRIMINATOR then
      match SellEventAMM.deserialize buffer with
      | some (e, _) => .ok (.Sell (SellEvent.fromAMM e))
      | none => .error ()
    else .error ()

/-- C3 [corrected]: for every buffer of at least 8 bytes whose first 8 bytes
match none of the four known discriminators, decoding fails — without a
panic — but with the same unit error `Err(())` that short buffers and field
parse failures produce: the error value is not distinguishable.  The
statement quantifies over the `pool_pda` and price-impact parameters: the
outcome does not depend on them. -/
theorem c3_unknown_discriminator_unit_error (pda : List Nat → List Nat)
    (mcap_after : Nat → Nat → Nat → Nat → Bool → Nat → Nat) (now : Int)
    (buf : List Nat) (h8 : 8 ≤ buf.length)
    (h1 : buf.take 8 ≠ TRADE_DISCRIMINATOR)
    (h2 : buf.take 8 ≠ CREATE_DISCRIMINATOR)
    (h3 : buf.take 8 ≠ BUY_AMM_DISCRIMINATOR)
    (h4 : buf.take 8 ≠ SELL_AMM_DISCRIMINATOR) :
    parse_optimized_bytes pda mcap_after now buf = .error () := by
  simp only [parse_optimized_bytes]
  rw [if_neg (by omega), if_neg h1, if_neg h2, if_neg h3, if_neg h4]

/-- Witness for `c3_unknown_discriminator_unit_error`: the all-zero 8-byte
buffer matches none of the discriminators. -/
theorem c3_unknown_discriminator_unit_error_witness :
    (8 ≤ ([0, 0, 0, 0, 0, 0, 0, 0] : List Nat).length ∧
      ([0, 0, 0, 0, 0, 0, 0, 0] : List Nat).take 8 ≠ TRADE_DISCRIMINATOR ∧
      ([0, 0, 0, 0, 0, 0, 0, 0] : List Nat).take 8 ≠ CREATE_DISCRIMINATOR ∧
      ([0, 0, 0, 0, 0, 0, 0, 0] : List Nat).take 8 ≠ BUY_AMM_DISCRIMINATOR ∧
      ([0, 0, 0, 0, 0, 0, 0, 0] : List Nat).take 8 ≠
        SELL_AMM_DISCRIMINATOR) ∧
    parse_optimized_bytes (fun m => m) (fun _ _ _ _ _ _ => 0) 0
      [0, 0, 0, 0, 0, 0, 0, 0] = .error () :=
  ⟨⟨by decide, by decide, by decide, by decide, by decide⟩,
    c3_unknown_discriminator_unit_error (fun m => m) (fun _ _ _ _ _ _ => 0)
      0 [0, 0, 0, 0, 0, 0, 0, 0] (by decide) (by decide) (by decide)
      (by decide) (by decide)⟩

/-- C3's counterexample to distinguishability: the unknown-discriminator
buffer `[0, ..., 0]` (8 bytes) and the too-short buffer `[]` decode to the
very same error value `Err(())` — the unknown-event failure is not an error
value distinct from the too-short failure, because `parse_optimized`'s error
type is the unit type. -/
theorem c3_counterexample :
    parse_optimized_bytes (fun m => m) (fun _ _ _ _ _ _ => 0) 0
        [0, 0, 0, 0, 0, 0, 0, 0] = .error () ∧
      parse_optimized_bytes (fun m => m) (fun _ _ _ _ _ _ => 0) 0 [] =
        .error () ∧
      parse_optimized_bytes (fun m => m) (fun _ _ _ _ _ _ => 0) 0
          [0, 0, 0, 0, 0, 0, 0, 0] =
        parse_optimized_bytes (fun m => m) (fun _ _ _ _ _ _ => 0) 0 [] :=
  ⟨by rfl, by rfl, by rfl⟩

end Tokenir
